import Mathlib

set_option linter.unusedVariables false
set_option linter.unusedSectionVars false

/-!
# Verification of the forecasting-and-evaluation engine

Shallow embedding of the prediction models (`src/utils/predictionModels.ts`)
and evaluation utilities (metric library, backtest harness, model scorer) of
the finance-visionary-toolkit repository, together with proofs of the
specification's testable properties.

Modelling conventions:
* JavaScript numbers are idealised as elements of a `LinearOrderedField` with
  a `FloorRing` structure (instantiated at `ℚ` for concrete evaluation and at
  `ℝ` for the claims that involve `Math.sqrt`/`Math.exp`/`Math.tanh`).
* The ambient `Math` library of transcendental functions is passed explicitly
  as a `MathOps` record; `Math.random()` is modelled as an explicit stream
  `rand : ℕ → α` of draws, indexed in call order.  Every model function
  receives both (mirroring the ambient availability of `Math` in JS); models
  whose source never calls them simply ignore them.
* A data row is reduced to the two fields the engine reads: its `date`
  (an integer count of calendar days, so that the JS idiom
  `setDate(getDate() + i)` is day-count addition) and the value of the
  target column.
* Out-of-range array reads (JS `undefined`) are modelled by a default of `0`.
-/

/-- A historical time-series row, reduced to the fields the engine reads:
the calendar date (as a day count) and the value of the target column. -/
structure Row (α : Type) where
  date : ℤ
  value : α
  deriving DecidableEq

/-- A prediction row as produced by every model: a date, the predicted value
of the target column, and the `isPrediction` flag. -/
structure PRow (α : Type) where
  date : ℤ
  value : α
  isPrediction : Bool
  deriving DecidableEq

/-- The transcendental part of the JS `Math` library used by the models. -/
structure MathOps (α : Type) where
  sqrt : α → α
  exp : α → α
  tanh : α → α

/-- The actual real-valued `Math` library. -/
noncomputable def realOps : MathOps ℝ :=
  { sqrt := Real.sqrt, exp := Real.exp, tanh := Real.tanh }

/-- A placeholder `Math` record used to instantiate, at `ℚ`, models whose
source never consults `Math.sqrt`/`Math.exp`/`Math.tanh`. -/
def trivialOps : MathOps ℚ :=
  { sqrt := id, exp := id, tanh := id }

section Core

variable {α : Type} [LinearOrderedField α] [FloorRing α]

/-- `parseFloat(x.toFixed(2))`: rounding to 2 decimal places. -/
def round2 (x : α) : α := ((round (100 * x) : ℤ) : α) / 100

/-- `new Date(d).getDay()`: day of week (0 = Sunday).  Day 0 of our count is
the Unix epoch 1970-01-01, a Thursday (`getDay() = 4`). -/
def dayOfWeek (d : ℤ) : ℕ := ((d + 4) % 7).toNat

/-- Civil calendar date (year, month, day-of-month) from a day count
(days since 1970-01-01), following the standard era-based algorithm;
`Int` division truncates toward zero exactly as the source language's. -/
def civilFromDays (z0 : ℤ) : ℤ × ℤ × ℤ :=
  let z := z0 + 719468
  let era := (if 0 ≤ z then z else z - 146096) / 146097
  let doe := z - era * 146097
  let yoe := (doe - doe / 1460 + doe / 36524 - doe / 146096) / 365
  let y := yoe + era * 400
  let doy := doe - (365 * yoe + yoe / 4 - yoe / 100)
  let mp := (5 * doy + 2) / 153
  let d := doy - (153 * mp + 2) / 5 + 1
  let m := mp + (if mp < 10 then 3 else -9)
  (y + (if m ≤ 2 then 1 else 0), m, d)

/-- `new Date(d).getDate()`: the day of the month of a day count. -/
def dayOfMonth (z : ℤ) : ℤ := (civilFromDays z).2.2

/-- JS array read `values[i]` with a possibly negative index
(out-of-range reads are modelled by `0`). -/
def jsGetD (values : List α) (i : ℤ) : α :=
  if 0 ≤ i then values.getD i.toNat 0 else 0

/-- `data.map(item => item[targetCol])`. -/
def vals (data : List (Row α)) : List α := data.map Row.value

/-- `new Date(data[data.length - 1].date)`: the date of the last input row.
This is the totalized value semantics (0 on the empty series); on the empty
series the source expression actually throws a TypeError, which `lastDateE`
below models faithfully for the claims about throwing. -/
def lastDate (data : List (Row α)) : ℤ := (data.map Row.date).getLastD 0

/-- The prediction loop shared by every model: for `i = 1 .. n`, compute the
day-`i` value and the next loop state with `step`, and push a row dated
`i` days after the last input date carrying the 2-decimal rounding of the
value and `isPrediction: true`. -/
def runPred {σ : Type} (last : ℤ) (step : ℕ → σ → α × σ) : ℕ → σ → ℕ → List (PRow α)
  | _, _, 0 => []
  | i, s, n + 1 =>
    ⟨last + (i : ℤ), round2 (step i s).1, true⟩ ::
      runPred last step (i + 1) (step i s).2 n

/-- The stateless prediction loop: day `i`'s value is `f i`. -/
def predRows (last : ℤ) (n : ℕ) (f : ℕ → α) : List (PRow α) :=
  runPred last (fun i _ => (f i, ())) 1 () n

theorem runPred_length {σ : Type} (last : ℤ) (step : ℕ → σ → α × σ) :
    ∀ (n i : ℕ) (s : σ), (runPred last step i s n).length = n := by
  intro n
  induction n with
  | zero => intro i s; rfl
  | succ n ih => intro i s; simp [runPred, ih]

theorem runPred_get {σ : Type} (last : ℤ) (step : ℕ → σ → α × σ) :
    ∀ (n i : ℕ) (s : σ) (j : ℕ) (hj : j < (runPred last step i s n).length),
      ∃ v : α, (runPred last step i s n).get ⟨j, hj⟩ =
        ⟨last + ((i + j : ℕ) : ℤ), round2 v, true⟩ := by
  intro n
  induction n with
  | zero => intro i s j hj; simp [runPred_length] at hj
  | succ n ih =>
    intro i s j hj
    cases j with
    | zero => exact ⟨(step i s).1, by simp [runPred]⟩
    | succ j =>
      have hj2 : j < (runPred last step (i + 1) (step i s).2 n).length := by
        rw [runPred_length]
        rw [runPred_length] at hj
        omega
      obtain ⟨v, hv⟩ := ih (i + 1) (step i s).2 j hj2
      refine ⟨v, ?_⟩
      have hstep : (runPred last step i s (n + 1)).get ⟨j + 1, hj⟩ =
          (runPred last step (i + 1) (step i s).2 n).get ⟨j, hj2⟩ := by
        simp [runPred]
      rw [hstep, hv]
      congr 2
      omega

/-- The shape contract of a model output: exactly `n` rows, the `j`-th
(0-based) dated `j+1` calendar days after `last`, flagged `isPrediction`,
with a target value that is some number rounded to 2 decimal places. -/
def ShapeOK (rows : List (PRow α)) (last : ℤ) (n : ℕ) : Prop :=
  rows.length = n ∧
    ∀ (j : ℕ) (hj : j < rows.length),
      ∃ v : α, rows.get ⟨j, hj⟩ = ⟨last + ((j + 1 : ℕ) : ℤ), round2 v, true⟩

theorem shape_runPred {σ : Type} (last : ℤ) (step : ℕ → σ → α × σ) (s : σ)
    (n : ℕ) : ShapeOK (runPred last step 1 s n) last n := by
  refine ⟨runPred_length last step n 1 s, fun j hj => ?_⟩
  obtain ⟨v, hv⟩ := runPred_get last step n 1 s j hj
  exact ⟨v, by rw [hv]; congr 2; omega⟩

theorem shape_predRows (last : ℤ) (n : ℕ) (f : ℕ → α) :
    ShapeOK (predRows last n f) last n :=
  shape_runPred last _ () n

end Core

/-! ## Metric library (`calculateMAE` … `calculateDirectionalAccuracy`) -/

section Metrics

variable {α : Type} [LinearOrderedField α] [FloorRing α]

/-- Mean Absolute Error. -/
def calculateMAE (actual predicted : List α) : α :=
  if actual.length ≠ predicted.length ∨ actual.length = 0 then 0
  else ((actual.zip predicted).map fun x => |x.1 - x.2|).sum / (actual.length : α)

/-- Mean Squared Error. -/
def calculateMSE (actual predicted : List α) : α :=
  if actual.length ≠ predicted.length ∨ actual.length = 0 then 0
  else ((actual.zip predicted).map fun x => (x.1 - x.2) ^ 2).sum / (actual.length : α)

/-- Root Mean Squared Error: `Math.sqrt(calculateMSE(actual, predicted))`. -/
def calculateRMSE (ops : MathOps α) (actual predicted : List α) : α :=
  ops.sqrt (calculateMSE actual predicted)

/-- Mean Absolute Percentage Error: the loop accumulates
`Math.abs((actual[i] - predicted[i]) / actual[i])` and a count over the
indices where `actual[i] !== 0`. -/
def calculateMAPE (actual predicted : List α) : α :=
  if actual.length ≠ predicted.length ∨ actual.length = 0 then 0
  else
    let s := ((actual.zip predicted).map fun x =>
      if x.1 ≠ 0 then |(x.1 - x.2) / x.1| else 0).sum
    let count := ((actual.zip predicted).filter fun x => decide (x.1 ≠ 0)).length
    if 0 < count then s / (count : α) * 100 else 0

/-- R-squared (coefficient of determination). -/
def calculateR2 (actual predicted : List α) : α :=
  if actual.length ≠ predicted.length ∨ actual.length = 0 then 0
  else
    let meanActual := actual.sum / (actual.length : α)
    let ssTotal := (actual.map fun v => (v - meanActual) ^ 2).sum
    let ssResidual := ((actual.zip predicted).map fun x => (x.1 - x.2) ^ 2).sum
    if 0 < ssTotal then 1 - ssResidual / ssTotal else 0

/-- Directional Accuracy: the percentage of consecutive steps on which the
actual and predicted differences agree in sign (`>= 0` matching `>= 0`,
`< 0` matching `< 0`). -/
def calculateDirectionalAccuracy (actual predicted : List α) : α :=
  if actual.length ≤ 1 ∨ predicted.length ≤ 1 ∨ actual.length ≠ predicted.length
  then 0
  else
    let aDirs := actual.tail.zipWith (fun x y => x - y) actual
    let pDirs := predicted.tail.zipWith (fun x y => x - y) predicted
    let correct := ((aDirs.zip pDirs).filter fun x =>
      decide ((0 ≤ x.1 ∧ 0 ≤ x.2) ∨ (x.1 < 0 ∧ x.2 < 0))).length
    (correct : α) / ((actual.length : α) - 1) * 100

/-- `BacktestResult`: the six metrics together with the raw arrays. -/
structure BacktestResult (α : Type) where
  mae : α
  mse : α
  rmse : α
  mape : α
  r2 : α
  directionalAccuracy : α
  predictedValues : List α
  actualValues : List α
  deriving DecidableEq

/-- The backtest harness `generateBacktestResults`: on a series shorter than
`2 · testWindowSize` it returns the all-zero result with empty arrays;
otherwise it holds out the last `testWindowSize` rows, runs the model on the
training prefix and scores the predictions against the held-out tail. -/
def generateBacktestResults (ops : MathOps α) (data : List (Row α))
    (modelFn : List (Row α) → ℕ → List (PRow α)) (testWindowSize : ℕ) :
    BacktestResult α :=
  if data.length < testWindowSize * 2 then
    ⟨0, 0, 0, 0, 0, 0, [], []⟩
  else
    let trainingData := data.take (data.length - testWindowSize)
    let testData := data.drop (data.length - testWindowSize)
    let predictions := modelFn trainingData testWindowSize
    let actualValues := testData.map Row.value
    let predictedValues := predictions.map PRow.value
    { mae := calculateMAE actualValues predictedValues
      mse := calculateMSE actualValues predictedValues
      rmse := calculateRMSE ops actualValues predictedValues
      mape := calculateMAPE actualValues predictedValues
      r2 := calculateR2 actualValues predictedValues
      directionalAccuracy := calculateDirectionalAccuracy actualValues predictedValues
      predictedValues := predictedValues
      actualValues := actualValues }

/-- The model scorer `calculateModelScore`: a weighted blend of the MAPE
score, the R² score and the directional accuracy, rounded to an integer
(`Math.round` rounds half toward positive infinity, as does `round`). -/
def calculateModelScore (metrics : BacktestResult α) : ℤ :=
  let mapeScore := max 0 (100 - metrics.mape)
  let r2Score := max 0 (metrics.r2 * 100)
  let daScore := metrics.directionalAccuracy
  round (mapeScore * (1 / 4) + r2Score * (1 / 4) + daScore * (1 / 2))

end Metrics

/-! ## Model library (`predictionModels.ts`)

Every model has the uniform signature
`MathOps α → (ℕ → α) → List (Row α) → ℕ → List (PRow α)`
(the `Math` record and the `Math.random()` stream are ambient in JS; models
whose source never calls them ignore those arguments). -/

section Models

variable {α : Type} [LinearOrderedField α] [FloorRing α]

/-- The uniform type of a model function. -/
def Model (α : Type) [LinearOrderedField α] [FloorRing α] : Type :=
  MathOps α → (ℕ → α) → List (Row α) → ℕ → List (PRow α)

/-- Ordinary least-squares slope and intercept of a series against its
0-based index, as computed (by the same sum formulas) in
`linearRegressionModel`, `transformerModel.calculateTrend`, `prophetModel`,
`bstsModel.estimateTrend` and `gamModel.fitLinearTrend`. -/
def olsFit (yValues : List α) : α × α :=
  let n := yValues.length
  let sumX : α := ((List.range n).map fun i => (i : α)).sum
  let sumY := yValues.sum
  let sumXY : α := ((List.range n).map fun (i : ℕ) => (i : α) * yValues.getD i 0).sum
  let sumXX : α := ((List.range n).map fun i => (i : α) * i).sum
  let slope := ((n : α) * sumXY - sumX * sumY) / ((n : α) * sumXX - sumX * sumX)
  (slope, (sumY - slope * sumX) / (n : α))

/-- Linear regression prediction: extrapolates the OLS line at
`nextX = n + i - 1` for prediction day `i`. -/
def linearRegressionModel (ops : MathOps α) (rand : ℕ → α)
    (data : List (Row α)) (daysToPredict : ℕ) : List (PRow α) :=
  let yValues := vals data
  let n := yValues.length
  let fit := olsFit yValues
  predRows (lastDate data) daysToPredict fun i =>
    fit.1 * ((n : α) + (i : α) - 1) + fit.2

/-- Moving average with an explicit window size: the mean of the last
`windowSize` values — the sum of `values.slice(-windowSize)` divided by
`windowSize` itself (not by the number of values actually present). -/
def movingAverageModelW (windowSize : ℕ) (ops : MathOps α) (rand : ℕ → α)
    (data : List (Row α)) (daysToPredict : ℕ) : List (PRow α) :=
  let values := vals data
  let lastWindow := values.drop (values.length - windowSize)
  let movingAverage := lastWindow.sum / (windowSize : α)
  predRows (lastDate data) daysToPredict fun _ => movingAverage

/-- Moving average prediction with the default window size 5. -/
def movingAverageModel (ops : MathOps α) (rand : ℕ → α)
    (data : List (Row α)) (daysToPredict : ℕ) : List (PRow α) :=
  movingAverageModelW 5 ops rand data daysToPredict

/-- Single exponential smoothing with an explicit `alpha`: seeded at
`values[0]` and recursed across the whole series; every predicted day
repeats the final smoothed value. -/
def exponentialSmoothingModelA (alpha : α) (ops : MathOps α) (rand : ℕ → α)
    (data : List (Row α)) (daysToPredict : ℕ) : List (PRow α) :=
  let values := vals data
  let forecast := values.tail.foldl (fun f v => alpha * v + (1 - alpha) * f)
    (values.headD 0)
  predRows (lastDate data) daysToPredict fun _ => forecast

/-- Exponential smoothing prediction with the default `alpha = 0.3`. -/
def exponentialSmoothingModel (ops : MathOps α) (rand : ℕ → α)
    (data : List (Row α)) (daysToPredict : ℕ) : List (PRow α) :=
  exponentialSmoothingModelA (3 / 10) ops rand data daysToPredict

/-- Double exponential smoothing (Holt): level/trend recursion with
`alpha = 0.3`, `beta = 0.2`, level seeded at `values[0]` and trend at
`values[1] - values[0]`; forecast is `level + i * trend`.  Note the trend
update reads the freshly updated level. -/
def doubleExponentialSmoothingModel (ops : MathOps α) (rand : ℕ → α)
    (data : List (Row α)) (daysToPredict : ℕ) : List (PRow α) :=
  let values := vals data
  let lt := values.tail.foldl
    (fun (lt : α × α) v =>
      let level := 3 / 10 * v + (1 - 3 / 10) * (lt.1 + lt.2)
      (level, 1 / 5 * (level - lt.1) + (1 - 1 / 5) * lt.2))
    (values.headD 0, values.getD 1 0 - values.headD 0)
  predRows (lastDate data) daysToPredict fun i => lt.1 + (i : α) * lt.2

/-- The average first difference over the last `order = 4` values
(`avgDiff` in `arimaLikeModel`). -/
def arimaAvgDiff (values : List α) : α :=
  let lastValues := values.drop (values.length - 4)
  let diff := lastValues.tail.zipWith (fun a b => a - b) lastValues
  diff.sum / (diff.length : α)

/-- ARIMA-like prediction (AR order `p = 3`, `order = p + 1 = 4`): if fewer
than 4 points, falls back to exponential smoothing; otherwise each day adds
the average first difference over the last 4 points to the running
(unrounded) last value. -/
def arimaLikeModel (ops : MathOps α) (rand : ℕ → α)
    (data : List (Row α)) (daysToPredict : ℕ) : List (PRow α) :=
  if (vals data).length < 4 then
    exponentialSmoothingModel ops rand data daysToPredict
  else
    let values := vals data
    let lastValues := values.drop (values.length - 4)
    let avgDiff := arimaAvgDiff values
    runPred (lastDate data)
      (fun _ lastValue => (lastValue + avgDiff, lastValue + avgDiff)) 1
      (lastValues.getLastD 0) daysToPredict

/-- Seasonal-naive prediction, weekly seasonality (`seasonLength = 7`): if
fewer than 7 points, falls back to the moving average; otherwise day `i`
repeats `values[values.length - 7 + ((i - 1) % 7)]`. -/
def seasonalNaiveModel (ops : MathOps α) (rand : ℕ → α)
    (data : List (Row α)) (daysToPredict : ℕ) : List (PRow α) :=
  if (vals data).length < 7 then
    movingAverageModel ops rand data daysToPredict
  else
    let values := vals data
    predRows (lastDate data) daysToPredict fun i =>
      values.getD (values.length - 7 + (i - 1) % 7) 0

/-- Mean reversion: each predicted value moves from the previous one toward
the long-term mean at fixed speed `0.1`, recursively. -/
def meanReversionModel (ops : MathOps α) (rand : ℕ → α)
    (data : List (Row α)) (daysToPredict : ℕ) : List (PRow α) :=
  let values := vals data
  let mean := values.sum / (values.length : α)
  runPred (lastDate data)
    (fun _ currentValue =>
      let nv := currentValue + 1 / 10 * (mean - currentValue)
      (nv, nv)) 1
    (values.getLastD 0) daysToPredict

/-- `calculateMovingAverage` (helper of `randomForestModel`): the mean of the
last `window` values, dividing by `window`. -/
def calculateMovingAverage (values : List α) (window : ℕ) : α :=
  (values.drop (values.length - window)).sum / (window : α)

/-- `calculateWeightedMA` (helper of `randomForestModel`): recency-weighted
mean of the last `window` values with weights `1, 2, …`. -/
def calculateWeightedMA (values : List α) (window : ℕ) : α :=
  let lastWindow := values.drop (values.length - window)
  let weightSum : α := (lastWindow.enum.map fun p => ((p.1 + 1 : ℕ) : α)).sum
  let valueSum := (lastWindow.enum.map fun p => p.2 * ((p.1 + 1 : ℕ) : α)).sum
  valueSum / weightSum

/-- Random-forest-like ensemble: a fixed blend of the 3/7/14-day moving
averages and the 5-day weighted moving average with weights
`0.3/0.3/0.2/0.2`; constant across all predicted days. -/
def randomForestModel (ops : MathOps α) (rand : ℕ → α)
    (data : List (Row α)) (daysToPredict : ℕ) : List (PRow α) :=
  let values := vals data
  let predictedValue :=
    calculateMovingAverage values 3 * (3 / 10) +
    calculateMovingAverage values 7 * (3 / 10) +
    calculateMovingAverage values 14 * (1 / 5) +
    calculateWeightedMA values 5 * (1 / 5)
  predRows (lastDate data) daysToPredict fun _ => predictedValue

/-- Support-vector-regression-like prediction: a normalized trend strength
(average of the last 5 minus average of the preceding 5 of the last 10
values, over the standard deviation) extrapolated with exponential damping
`exp(-0.1 * i)`.  `stdDev || 1` guards a zero standard deviation. -/
def svrModel (ops : MathOps α) (rand : ℕ → α)
    (data : List (Row α)) (daysToPredict : ℕ) : List (PRow α) :=
  let values := vals data
  let mean := values.sum / (values.length : α)
  let stdDev := ops.sqrt ((values.map fun v => (v - mean) ^ 2).sum / (values.length : α))
  let recentValues := values.drop (values.length - 10)
  let firstHalf := recentValues.take 5
  let secondHalf := recentValues.drop (recentValues.length - 5)
  let firstHalfAvg := firstHalf.sum / (firstHalf.length : α)
  let secondHalfAvg := secondHalf.sum / (secondHalf.length : α)
  let trendStrength := secondHalfAvg - firstHalfAvg
  let normalizedTrend := trendStrength / (if stdDev = 0 then 1 else stdDev)
  let lastValue := values.getLastD 0
  predRows (lastDate data) daysToPredict fun i =>
    lastValue + normalizedTrend * stdDev * ops.exp (-(1 / 10) * (i : α)) * (i : α)

/-- `identifyPattern` (helper of `lstmModel`): the average `lookback`-step
change per step, or 0 when fewer than `2 * lookback` points. -/
def identifyPattern (values : List α) (lookback : ℕ) : α :=
  if values.length < lookback * 2 then 0
  else
    let changes := (List.range (values.length - lookback)).map fun k =>
      (values.getD (k + lookback) 0 - values.getD k 0) / (lookback : α)
    changes.sum / (changes.length : α)

/-- LSTM-like prediction: three pattern signals (lookbacks 3/7/14) blended
with exponentially time-decaying weights (decay rates 0.2/0.1/0.05), the
change applied recursively to the running last value. -/
def lstmModel (ops : MathOps α) (rand : ℕ → α)
    (data : List (Row α)) (daysToPredict : ℕ) : List (PRow α) :=
  let values := vals data
  let shortPattern := identifyPattern values 3
  let mediumPattern := identifyPattern values 7
  let longPattern := identifyPattern values 14
  runPred (lastDate data)
    (fun i lastValue =>
      let shortWeight := ops.exp (-(1 / 5) * (i : α))
      let mediumWeight := ops.exp (-(1 / 10) * (i : α))
      let longWeight := ops.exp (-(1 / 20) * (i : α))
      let weightSum := shortWeight + mediumWeight + longWeight
      let predictedChange := (shortPattern * shortWeight +
        mediumPattern * mediumWeight + longPattern * longWeight) / weightSum
      let nv := lastValue + predictedChange
      (nv, nv)) 1
    (values.getLastD 0) daysToPredict

/-- `calculateTrend` (helper of `transformerModel`): OLS slope against the
0-based index, or 0 when fewer than 2 points (`slope || 0` is the identity
in exact arithmetic). -/
def calculateTrend (values : List α) : α :=
  if values.length < 2 then 0 else (olsFit values).1

/-- `calculateVolatility` (helper of `transformerModel`): coefficient of
variation, `sqrt(variance) / mean`, or 0 when fewer than 2 points. -/
def calculateVolatility (ops : MathOps α) (values : List α) : α :=
  if values.length < 2 then 0
  else
    let mean := values.sum / (values.length : α)
    let variance := (values.map fun v => (v - mean) ^ 2).sum / (values.length : α)
    ops.sqrt variance / mean

/-- `detectCycles` (helper of `transformerModel`): a lag-7 (capped at
`length / 3`) autocorrelation-like sum, tanh-normalized; 0 when fewer than
10 points.  (The source's first loop iteration reads `values[-1]`, i.e.
`undefined`; here an out-of-range read is 0.) -/
def detectCycles (ops : MathOps α) (values : List α) : α :=
  if values.length < 10 then 0
  else
    let lag := min 7 (values.length / 3)
    let correlation := ((List.range (values.length - lag)).map fun k =>
      (jsGetD values (k + lag) - jsGetD values k) *
        (jsGetD values (k + lag - 1) - jsGetD values ((k : ℤ) - 1))).sum
    ops.tanh (correlation / (values.length : α))

/-- Transformer-like prediction: per predicted day, blends three OLS trends
(windows 5/10/20) with day-progress-dependent weights, modulated by a cycle
factor and dampened by a volatility-based uncertainty factor. -/
def transformerModel (ops : MathOps α) (rand : ℕ → α)
    (data : List (Row α)) (daysToPredict : ℕ) : List (PRow α) :=
  let values := vals data
  let lastValue := values.getLastD 0
  predRows (lastDate data) daysToPredict fun i =>
    let recentTrend := calculateTrend (values.drop (values.length - 5))
    let mediumTrend := calculateTrend (values.drop (values.length - 10))
    let longTrend := calculateTrend (values.drop (values.length - 20))
    let volatility := calculateVolatility ops (values.drop (values.length - 20))
    let cycleFactor := detectCycles ops values
    let dayFactor := min ((i : α) / (daysToPredict : α)) 1
    let recentWeight := max (1 / 2 - dayFactor * (2 / 5)) (1 / 10)
    let mediumWeight : α := 3 / 10
    let longWeight := 1 / 10 + dayFactor * (1 / 5)
    let volatilityWeight : α := 1 / 10
    let cycleWeight := 1 / 10 + dayFactor * (1 / 10)
    let predictedChange := (recentTrend * recentWeight +
      mediumTrend * mediumWeight + longTrend * longWeight) *
      (1 + cycleFactor * cycleWeight)
    let uncertaintyFactor := 1 - min (dayFactor * volatility * volatilityWeight) (1 / 2)
    lastValue + predictedChange * (i : α) * uncertaintyFactor

/-- `detectWeeklyPattern` (helper of `prophetModel`): for each day of week,
the mean of the raw target values falling on it minus the overall mean
(0 for a weekday never observed). -/
def detectWeeklyPattern (data : List (Row α)) (overallMean : α) (dow : ℕ) : α :=
  let dayRows := data.filter fun r => decide (dayOfWeek r.date = dow)
  if 0 < dayRows.length then
    ((dayRows.map Row.value).sum / (dayRows.length : α)) - overallMean
  else 0

/-- `detectMonthlyPattern` (helper of `prophetModel`): 0 for fewer than 60
rows; otherwise compares the mean of the two halves of the series and keeps
a tenth of the difference when it exceeds 10% of the first-half mean. -/
def detectMonthlyPattern (data : List (Row α)) : α :=
  if data.length < 60 then 0
  else
    let firstHalf := data.take (data.length / 2)
    let secondHalf := data.drop (data.length / 2)
    let firstAvg := (firstHalf.map Row.value).sum / (firstHalf.length : α)
    let secondAvg := (secondHalf.map Row.value).sum / (secondHalf.length : α)
    if 1 / 10 * |firstAvg| < |secondAvg - firstAvg| then (secondAvg - firstAvg) / 10
    else 0

/-- Prophet-like prediction: OLS trend extrapolated at `n + i - 1`, plus an
additive weekly day-of-week offset and a monthly adjustment proportional to
the predicted day's day-of-month over 30. -/
def prophetModel (ops : MathOps α) (rand : ℕ → α)
    (data : List (Row α)) (daysToPredict : ℕ) : List (PRow α) :=
  let values := vals data
  let n := values.length
  let fit := olsFit values
  let overallMean := values.sum / (n : α)
  let monthlyFactor := detectMonthlyPattern data
  predRows (lastDate data) daysToPredict fun i =>
    let trendPrediction := fit.2 + fit.1 * ((n : α) + (i : α) - 1)
    let weeklySeasonal := detectWeeklyPattern data overallMean
      (dayOfWeek (lastDate data + (i : ℤ)))
    let monthlySeasonal := monthlyFactor *
      ((dayOfMonth (lastDate data + (i : ℤ)) : α) / 30)
    trendPrediction + weeklySeasonal + monthlySeasonal

/-- A weak learner of `xgboostModel`: for index `idx`, `values[0]` when
`idx < window`, otherwise the previous value plus the average first
difference over `values.slice(idx - window, idx)` divided by `window - 1`. -/
def xgbPredict (values : List α) (window : ℕ) (idx : ℕ) : α :=
  if idx < window then values.headD 0
  else
    let recentValues := (values.take idx).drop (idx - window)
    let diffsSum := (recentValues.tail.zipWith (fun a b => a - b) recentValues).sum
    let avgChange := diffsSum / ((window : α) - 1)
    values.getD (idx - 1) 0 + avgChange

/-- XGBoost-like prediction: five weak learners (windows 3/5/7/14/21) with
weights `exp(-0.1 * window)`, each evaluated at the last index and perturbed
by a uniform draw scaled by `0.02 * i - 0.01`; the blend is approached from
the running last value at rate `0.2 * i`.  The learner of index `idx` on day
`i` consumes draw number `(i - 1) * 5 + idx`.  (The source also maintains a
`residuals` array that no output ever reads.) -/
def xgboostModel (ops : MathOps α) (rand : ℕ → α)
    (data : List (Row α)) (daysToPredict : ℕ) : List (PRow α) :=
  let values := vals data
  let windows : List ℕ := [3, 5, 7, 14, 21]
  runPred (lastDate data)
    (fun i lastValue =>
      let blend := (windows.enum.map fun p =>
        xgbPredict values p.2 (values.length - 1) *
          (1 + (rand ((i - 1) * 5 + p.1) * (1 / 50) - 1 / 100) * (i : α)) *
          ops.exp (-(1 / 10) * (p.2 : α))).sum
      let weightSum := (windows.map fun w => ops.exp (-(1 / 10) * (w : α))).sum
      let nv := lastValue + (blend / weightSum - lastValue) * (1 / 5) * (i : α)
      (nv, nv)) 1
    (values.getLastD 0) daysToPredict

/-- `checkDifferencing`'s correlation of a series with its time index
(helper of `autoARIMAModel`). -/
def pearsonWithTime (ops : MathOps α) (timeSeries : List α) : α :=
  let n := timeSeries.length
  let xMean := ((List.range n).map fun i => (i : α)).sum / (n : α)
  let yMean := timeSeries.sum / (n : α)
  let num := (timeSeries.enum.map fun p => ((p.1 : α) - xMean) * (p.2 - yMean)).sum
  let xDen := ((List.range n).map fun i => ((i : α) - xMean) ^ 2).sum
  let yDen := (timeSeries.map fun y => (y - yMean) ^ 2).sum
  num / ops.sqrt (xDen * yDen)

/-- The lag-correlation heuristic shared by `selectOrders` and
`estimateARCoefficients` in `autoARIMAModel`. -/
def lagCorrelation (ops : MathOps α) (series : List α) (lag : ℕ) : α :=
  let laggedSeries := series.drop lag
  let mainSeries := series.take (series.length - lag)
  let n := laggedSeries.length
  let laggedMean := laggedSeries.sum / (n : α)
  let mainMean := mainSeries.sum / (n : α)
  let num := (laggedSeries.zipWith
    (fun a b => (a - laggedMean) * (b - mainMean)) mainSeries).sum
  let lden := (laggedSeries.map fun v => (v - laggedMean) ^ 2).sum
  let mden := (mainSeries.map fun v => (v - mainMean) ^ 2).sum
  num / ops.sqrt (lden * mden)

/-- `selectOrders` (helper of `autoARIMAModel`): picks the AR order as the
first lag (1 to `min 5 (n / 3)`) of strongest absolute lag-correlation of
the (possibly differenced) series, and the MA order as `max 1 (ar - 1)`. -/
def selectOrders (ops : MathOps α) (timeSeries : List α) (differenced : Bool) :
    ℕ × ℕ :=
  let workingSeries := if differenced
    then (timeSeries.drop 1).zipWith (fun a b => a - b) timeSeries
    else timeSeries
  let maxLag := min 5 (workingSeries.length / 3)
  let correlations := (List.range maxLag).map fun k =>
    |lagCorrelation ops workingSeries (k + 1)|
  let arOrder := if correlations.length = 0 then 1
    else correlations.indexOf (correlations.foldr max 0) + 1
  (arOrder, max 1 (arOrder - 1))

/-- `estimateARCoefficients` (helper of `autoARIMAModel`): every initial
`0.5 / p` coefficient is overwritten with half the lag correlation. -/
def estimateARCoefficients (ops : MathOps α) (series : List α) (p : ℕ) :
    List α :=
  (List.range p).map fun i => lagCorrelation ops series (i + 1) * (1 / 2)

/-- `estimateMACoefficients` (helper of `autoARIMAModel`): correlations of
the AR residual errors at lags `1 .. q`, guarded against a zero
denominator; coefficients beyond the available error lags stay 0. -/
def estimateMACoefficients (ops : MathOps α) (series arCoeffs : List α)
    (q : ℕ) : List α :=
  let p := arCoeffs.length
  let errors := (List.range (series.length - p)).map fun k =>
    let i := k + p
    let arPrediction := (arCoeffs.enum.map fun c =>
      c.2 * series.getD (i - c.1 - 1) 0).sum
    series.getD i 0 - arPrediction
  (List.range q).map fun i =>
    if i + 1 < errors.length then
      let lag := i + 1
      let laggedErrors := errors.drop lag
      let mainErrors := errors.take (errors.length - lag)
      let n := laggedErrors.length
      let laggedMean := laggedErrors.sum / (n : α)
      let mainMean := mainErrors.sum / (n : α)
      let num := (laggedErrors.zipWith
        (fun a b => (a - laggedMean) * (b - mainMean)) mainErrors).sum
      let lden := (laggedErrors.map fun v => (v - laggedMean) ^ 2).sum
      let mden := (mainErrors.map fun v => (v - mainMean) ^ 2).sum
      let denom := ops.sqrt (lden * mden)
      if denom ≠ 0 then num / denom else 0
    else 0

/-- The inner `arimaModel(data, targetCol, daysToPredict, p, d, q)` of
`autoARIMAModel`: estimates AR/MA coefficients on the (possibly
differenced) series, reconstructs the last `q` errors (a queue with the
newest error at the front, capped at `q`), and recurses the AR/MA forecast
forward, adding back `values[n - 1 + (i - 1)]` when differenced.  (That
add-back index is out of range for every day `i ≥ 2`, an `undefined` read
in the source; here an out-of-range read is 0.) -/
def arimaFullModel (ops : MathOps α) (data : List (Row α))
    (daysToPredict p d q : ℕ) : List (PRow α) :=
  let values := vals data
  let workingSeries := if 0 < d
    then (values.drop d).zipWith (fun a b => a - b) values
    else values
  let arCoeffs := estimateARCoefficients ops workingSeries p
  let maCoeffs := estimateMACoefficients ops workingSeries arCoeffs q
  let lastValues := values.drop (values.length - p)
  let errors := (List.range (values.length - p)).foldl
    (fun (errors : List α) k =>
      let i := k + p
      let arPrediction := ((List.range p).map fun j =>
        arCoeffs.getD j 0 * values.getD (i - j - 1) 0).sum
      let maPrediction := ((List.range (min q errors.length)).map fun j =>
        maCoeffs.getD j 0 * errors.getD j 0).sum
      let e := values.getD i 0 - (arPrediction + maPrediction)
      let errors2 := e :: errors
      if q < errors2.length then errors2.dropLast else errors2) []
  runPred (lastDate data)
    (fun i st =>
      let forecastValues := st.1
      let forecastErrors := st.2
      let arPrediction := ((List.range p).map fun j =>
        arCoeffs.getD j 0 * jsGetD forecastValues ((forecastValues.length : ℤ) - j - 1)).sum
      let maPrediction := ((List.range (min q forecastErrors.length)).map fun j =>
        maCoeffs.getD j 0 * forecastErrors.getD j 0).sum
      let predictedValue := arPrediction + maPrediction +
        (if 0 < d then jsGetD values ((values.length : ℤ) - 1 + ((i : ℤ) - 1)) else 0)
      let fe := (0 : α) :: forecastErrors
      (predictedValue,
        (forecastValues ++ [predictedValue],
          if q < fe.length then fe.dropLast else fe))) 1
    (lastValues, errors) daysToPredict

/-- Auto-ARIMA prediction: differences once when the series correlates with
its time index beyond `0.3` in absolute value, selects orders by lag
correlation, and runs the simplified ARIMA recursion. -/
def autoARIMAModel (ops : MathOps α) (rand : ℕ → α)
    (data : List (Row α)) (daysToPredict : ℕ) : List (PRow α) :=
  let values := vals data
  let needsDifferencing : Bool := decide ((3 : α) / 10 < |pearsonWithTime ops values|)
  let o := selectOrders ops values needsDifferencing
  arimaFullModel ops data daysToPredict o.1 (if needsDifferencing then 1 else 0) o.2

/-- `estimateTrend` (helper of `bstsModel`): the OLS fit together with the
square root of the residual variance (denominator `n - 2`). -/
def estimateTrend (ops : MathOps α) (timeSeries : List α) : (α × α) × α :=
  let fit := olsFit timeSeries
  let residuals := timeSeries.enum.map fun p => p.2 - (fit.2 + fit.1 * (p.1 : α))
  let residualVariance := (residuals.map fun r => r * r).sum /
    ((timeSeries.length : α) - 2)
  (fit, ops.sqrt residualVariance)

/-- `estimateSeasonality` (helper of `bstsModel`): day-of-week means of the
detrended series, their per-day variances (sample variance when a weekday
has more than one observation), and the averaged weekly uncertainty. -/
def estimateSeasonality (ops : MathOps α) (data : List (Row α)) :
    (ℕ → α) × α :=
  let values := vals data
  let te := estimateTrend ops values
  let detrended := data.enum.map fun p =>
    (dayOfWeek p.2.date, p.2.value - (te.1.2 + te.1.1 * (p.1 : α)))
  let seasonal : ℕ → α := fun dow =>
    let group := (detrended.filter fun x => decide (x.1 = dow)).map Prod.snd
    if 0 < group.length then group.sum / (group.length : α) else 0
  let variance : ℕ → α := fun dow =>
    let group := (detrended.filter fun x => decide (x.1 = dow)).map Prod.snd
    let s := (group.map fun v => (v - seasonal dow) ^ 2).sum
    if 1 < group.length then s / ((group.length : α) - 1) else s
  (seasonal, ops.sqrt (((List.range 7).map variance).sum / 7))

/-- BSTS-like prediction: OLS trend evaluated at `n + i`, plus the weekly
seasonal mean for the predicted day of week, plus three uniform-random
perturbations scaled by the trend uncertainty, the weekly uncertainty, and
`sqrt(i) * 0.01 * lastValue`.  Day `i` consumes draws `3(i-1)`,
`3(i-1)+1`, `3(i-1)+2`. -/
def bstsModel (ops : MathOps α) (rand : ℕ → α)
    (data : List (Row α)) (daysToPredict : ℕ) : List (PRow α) :=
  let values := vals data
  let te := estimateTrend ops values
  let seas := estimateSeasonality ops data
  predRows (lastDate data) daysToPredict fun i =>
    let dow := dayOfWeek (lastDate data + (i : ℤ))
    let horizonUncertainty := ops.sqrt (i : α) * (1 / 100)
    let trendValue := te.1.2 + te.1.1 * ((values.length : α) + (i : α))
    let seasonalValue := seas.1 dow
    let trendAdjustment := (rand (3 * (i - 1)) - 1 / 2) * te.2 * (i : α)
    let seasonalAdjustment := (rand (3 * (i - 1) + 1) - 1 / 2) * seas.2
    let horizonAdjustment := (rand (3 * (i - 1) + 2) - 1 / 2) *
      horizonUncertainty * values.getLastD 0
    trendValue + seasonalValue + trendAdjustment + seasonalAdjustment +
      horizonAdjustment

/-- `fitLinearTrend` (helper of `gamModel`): the OLS trend as a function of
the index. -/
def fitLinearTrend (timeSeries : List α) : α → α :=
  let fit := olsFit timeSeries
  fun x => fit.2 + fit.1 * x

/-- `fitDayOfWeekEffect` (helper of `gamModel`): mean detrended value per
day of week. -/
def fitDayOfWeekEffect (data : List (Row α)) (dow : ℕ) : α :=
  let trendFunc := fitLinearTrend (vals data)
  let detrended := data.enum.map fun p =>
    (dayOfWeek p.2.date, p.2.value - trendFunc (p.1 : α))
  let group := (detrended.filter fun x => decide (x.1 = dow)).map Prod.snd
  if 0 < group.length then group.sum / (group.length : α) else 0

/-- `fitMomentumEffect` (helper of `gamModel`): amplifies momentum by
`1 + 0.2 * |momentum|` (its series argument is unused in the source too). -/
def fitMomentumEffect (timeSeries : List α) : α → α :=
  fun momentum => momentum * (1 + 1 / 5 * |momentum|)

/-- `fitLevelEffect` (helper of `gamModel`): mean-reversion term
`-0.05 * zScore * level`. -/
def fitLevelEffect (ops : MathOps α) (timeSeries : List α) : α → α :=
  let mean := timeSeries.sum / (timeSeries.length : α)
  let stdDev := ops.sqrt ((timeSeries.map fun v => (v - mean) ^ 2).sum /
    (timeSeries.length : α))
  fun level => -(1 / 20) * ((level - mean) / stdDev) * level

/-- `calculateMomentum` (helper of `gamModel`): last value against the mean
of the preceding ones, normalized by `Math.abs(prevAvg || 1)`; 0 when fewer
than 3 values. -/
def calculateMomentum (recentValues : List α) : α :=
  if recentValues.length < 3 then 0
  else
    let lastV := recentValues.getLastD 0
    let prevAvg := recentValues.dropLast.sum / ((recentValues.length : α) - 1)
    (lastV - prevAvg) / |if prevAvg = 0 then 1 else prevAvg|

/-- GAM-like prediction: linear trend at `n + i`, plus the day-of-week
effect, a momentum term over a rolling 10-value window (fed with the
unrounded predictions), and a constant level term at the last historical
value. -/
def gamModel (ops : MathOps α) (rand : ℕ → α)
    (data : List (Row α)) (daysToPredict : ℕ) : List (PRow α) :=
  let values := vals data
  let trendFunc := fitLinearTrend values
  let momentumFunc := fitMomentumEffect values
  let levelFunc := fitLevelEffect ops values
  runPred (lastDate data)
    (fun i lastValues =>
      let trendComponent := trendFunc ((values.length : α) + (i : α))
      let dowComponent := fitDayOfWeekEffect data (dayOfWeek (lastDate data + (i : ℤ)))
      let momentumComponent := momentumFunc (calculateMomentum lastValues)
      let levelComponent := levelFunc (values.getLastD 0)
      let pv := trendComponent + dowComponent + momentumComponent + levelComponent
      (pv, (lastValues ++ [pv]).tail)) 1
    (values.drop (values.length - 10)) daysToPredict

/-- The full model catalog (16 strategies, in source order). -/
def allModels : List (Model α) :=
  [linearRegressionModel, movingAverageModel, exponentialSmoothingModel,
   doubleExponentialSmoothingModel, arimaLikeModel, seasonalNaiveModel,
   meanReversionModel, randomForestModel, svrModel, lstmModel,
   transformerModel, prophetModel, xgboostModel, autoARIMAModel, bstsModel,
   gamModel]

/-- The models whose source never calls `Math.random()` (all except the
pseudo-XGBoost and pseudo-BSTS heuristics). -/
def nonNoiseModels : List (Model α) :=
  [linearRegressionModel, movingAverageModel, exponentialSmoothingModel,
   doubleExponentialSmoothingModel, arimaLikeModel, seasonalNaiveModel,
   meanReversionModel, randomForestModel, svrModel, lstmModel,
   transformerModel, prophetModel, autoARIMAModel, gamModel]

/-! ### Fallible entry layer

The one throwing operation in the model library is the shared entry step
`new Date(data[data.length - 1].date)`: on the empty series
`data[data.length - 1]` is `undefined` and reading its `.date` throws a
TypeError.  All remaining arithmetic is non-throwing in JS (degenerate
values become `NaN`, not exceptions).  The fallible variants below return
`none` exactly on that error path and otherwise the total model's value. -/

/-- `new Date(data[data.length - 1].date)` as actually evaluated: `none`
(a thrown TypeError) on the empty series, the last row's date otherwise. -/
def lastDateE (data : List (Row α)) : Option ℤ := data.getLast?.map Row.date

/-- Fallible `exponentialSmoothingModel`: the smoothing fold itself cannot
throw, but the subsequent read of the last row's date throws on the empty
series; on a non-empty series the result is the total model's value. -/
def exponentialSmoothingModelE (ops : MathOps α) (rand : ℕ → α)
    (data : List (Row α)) (daysToPredict : ℕ) : Option (List (PRow α)) :=
  (lastDateE data).map fun _ => exponentialSmoothingModel ops rand data daysToPredict

/-- Fallible `arimaLikeModel`: with fewer than 4 points it delegates to the
(fallible) exponential-smoothing fallback — so on the empty series it
propagates that fallback's TypeError — and otherwise (the series then being
non-empty) reads its own last-row date and returns the total model's
value. -/
def arimaLikeModelE (ops : MathOps α) (rand : ℕ → α)
    (data : List (Row α)) (daysToPredict : ℕ) : Option (List (PRow α)) :=
  if (vals data).length < 4 then
    exponentialSmoothingModelE ops rand data daysToPredict
  else (lastDateE data).map fun _ => arimaLikeModel ops rand data daysToPredict

end Models

/-! ## Shape of every model's output -/

section ShapeLemmas

variable {α : Type} [LinearOrderedField α] [FloorRing α]
variable (ops : MathOps α) (rand : ℕ → α) (data : List (Row α)) (n : ℕ)

theorem shape_linearRegressionModel :
    ShapeOK (linearRegressionModel ops rand data n) (lastDate data) n :=
  shape_predRows _ _ _

theorem shape_movingAverageModelW (w : ℕ) :
    ShapeOK (movingAverageModelW w ops rand data n) (lastDate data) n :=
  shape_predRows _ _ _

theorem shape_movingAverageModel :
    ShapeOK (movingAverageModel ops rand data n) (lastDate data) n :=
  shape_predRows _ _ _

theorem shape_exponentialSmoothingModelA (a : α) :
    ShapeOK (exponentialSmoothingModelA a ops rand data n) (lastDate data) n :=
  shape_predRows _ _ _

theorem shape_exponentialSmoothingModel :
    ShapeOK (exponentialSmoothingModel ops rand data n) (lastDate data) n :=
  shape_predRows _ _ _

theorem shape_doubleExponentialSmoothingModel :
    ShapeOK (doubleExponentialSmoothingModel ops rand data n) (lastDate data) n :=
  shape_predRows _ _ _

theorem shape_arimaLikeModel :
    ShapeOK (arimaLikeModel ops rand data n) (lastDate data) n := by
  unfold arimaLikeModel
  split
  · exact shape_exponentialSmoothingModel ops rand data n
  · exact shape_runPred _ _ _ _

theorem shape_seasonalNaiveModel :
    ShapeOK (seasonalNaiveModel ops rand data n) (lastDate data) n := by
  unfold seasonalNaiveModel
  split
  · exact shape_movingAverageModel ops rand data n
  · exact shape_predRows _ _ _

theorem shape_meanReversionModel :
    ShapeOK (meanReversionModel ops rand data n) (lastDate data) n :=
  shape_runPred _ _ _ _

theorem shape_randomForestModel :
    ShapeOK (randomForestModel ops rand data n) (lastDate data) n :=
  shape_predRows _ _ _

theorem shape_svrModel :
    ShapeOK (svrModel ops rand data n) (lastDate data) n :=
  shape_predRows _ _ _

theorem shape_lstmModel :
    ShapeOK (lstmModel ops rand data n) (lastDate data) n :=
  shape_runPred _ _ _ _

theorem shape_transformerModel :
    ShapeOK (transformerModel ops rand data n) (lastDate data) n :=
  shape_predRows _ _ _

theorem shape_prophetModel :
    ShapeOK (prophetModel ops rand data n) (lastDate data) n :=
  shape_predRows _ _ _

theorem shape_xgboostModel :
    ShapeOK (xgboostModel ops rand data n) (lastDate data) n :=
  shape_runPred _ _ _ _

theorem shape_arimaFullModel (p d q : ℕ) :
    ShapeOK (arimaFullModel ops data n p d q) (lastDate data) n :=
  shape_runPred _ _ _ _

theorem shape_autoARIMAModel :
    ShapeOK (autoARIMAModel ops rand data n) (lastDate data) n :=
  shape_arimaFullModel ops data n _ _ _

theorem shape_bstsModel :
    ShapeOK (bstsModel ops rand data n) (lastDate data) n :=
  shape_predRows _ _ _

theorem shape_gamModel :
    ShapeOK (gamModel ops rand data n) (lastDate data) n :=
  shape_runPred _ _ _ _

end ShapeLemmas

/-! ## Value-extraction lemmas for the prediction loop -/

section ValueLemmas

variable {α : Type} [LinearOrderedField α] [FloorRing α]

theorem vals_length (data : List (Row α)) : (vals data).length = data.length :=
  List.length_map _ _

theorem getLast?_drop {β : Type} :
    ∀ (l : List β) (k : ℕ), k < l.length → (l.drop k).getLast? = l.getLast? := by
  intro l
  induction l with
  | nil => intro k hk; simp at hk
  | cons a t ih =>
    intro k hk
    cases k with
    | zero => rfl
    | succ k =>
      have hk2 : k < t.length := by simpa using hk
      rw [List.drop_succ_cons, ih k hk2]
      cases t with
      | nil => simp at hk2
      | cons b t2 => rw [List.getLast?_cons_cons]

theorem getLastD_drop {β : Type} (l : List β) (k : ℕ) (d : β)
    (h : k < l.length) : (l.drop k).getLastD d = l.getLastD d := by
  rw [List.getLastD_eq_getLast?, List.getLastD_eq_getLast?, getLast?_drop l k h]

theorem runPred_getD_fun (last : ℤ) (f : ℕ → α) :
    ∀ (n i j : ℕ), j < n →
      ((runPred last (fun i2 _ => (f i2, ())) i () n).map PRow.value).getD j 0 =
        round2 (f (i + j)) := by
  intro n
  induction n with
  | zero => intro i j hj; omega
  | succ n ih =>
    intro i j hj
    cases j with
    | zero => simp [runPred]
    | succ j =>
      have hj2 : j < n := by omega
      have := ih (i + 1) j hj2
      simp only [runPred, List.map_cons, List.getD_cons_succ]
      rw [this]
      have harg : i + 1 + j = i + (j + 1) := by omega
      rw [harg]

theorem predRows_getD (last : ℤ) (n : ℕ) (f : ℕ → α) (j : ℕ) (hj : j < n) :
    ((predRows last n f).map PRow.value).getD j 0 = round2 (f (j + 1)) := by
  have := runPred_getD_fun last f n 1 j hj
  rwa [Nat.add_comm 1 j] at this

theorem runPred_getD_addc (last : ℤ) (c : α) :
    ∀ (n i j : ℕ) (L : α), j < n →
      ((runPred last (fun _ x => (x + c, x + c)) i L n).map PRow.value).getD j 0 =
        round2 (L + ((j : α) + 1) * c) := by
  intro n
  induction n with
  | zero => intro i j L hj; omega
  | succ n ih =>
    intro i j L hj
    cases j with
    | zero =>
      simp only [runPred, List.map_cons, List.getD_cons_zero]
      congr 1
      ring
    | succ j =>
      have hj2 : j < n := by omega
      simp only [runPred, List.map_cons, List.getD_cons_succ]
      rw [ih (i + 1) j (L + c) hj2]
      congr 1
      push_cast
      ring

end ValueLemmas

/-! ## Claims -/

/-- A small concrete real-valued series used to instantiate the
universally-quantified claims about the model library. -/
def sampleSeries : List (Row ℝ) := [⟨0, 1⟩, ⟨1, 2⟩]

/-- C1: every model in the Model Library, on any series of length at least 2
(values finite, last date a calendar day count) and any horizon `h ≥ 1`,
returns exactly `h` rows, the `i`-th (1-based) carrying
`isPrediction = true`, a date exactly `i` calendar days after the last input
row's date, and a target value that is some number rounded to 2 decimal
places. -/
theorem claim_C1 :
    ∀ m ∈ (allModels (α := ℝ)), ∀ (ops : MathOps ℝ) (rand : ℕ → ℝ)
      (data : List (Row ℝ)) (h : ℕ), 2 ≤ data.length → 1 ≤ h →
      ShapeOK (m ops rand data h) (lastDate data) h := by
  intro m hm ops rand data h hlen hh
  simp only [allModels, List.mem_cons, List.not_mem_nil, or_false] at hm
  rcases hm with rfl | rfl | rfl | rfl | rfl | rfl | rfl | rfl | rfl | rfl |
    rfl | rfl | rfl | rfl | rfl | rfl
  · exact shape_linearRegressionModel ops rand data h
  · exact shape_movingAverageModel ops rand data h
  · exact shape_exponentialSmoothingModel ops rand data h
  · exact shape_doubleExponentialSmoothingModel ops rand data h
  · exact shape_arimaLikeModel ops rand data h
  · exact shape_seasonalNaiveModel ops rand data h
  · exact shape_meanReversionModel ops rand data h
  · exact shape_randomForestModel ops rand data h
  · exact shape_svrModel ops rand data h
  · exact shape_lstmModel ops rand data h
  · exact shape_transformerModel ops rand data h
  · exact shape_prophetModel ops rand data h
  · exact shape_xgboostModel ops rand data h
  · exact shape_autoARIMAModel ops rand data h
  · exact shape_bstsModel ops rand data h
  · exact shape_gamModel ops rand data h

/-- Witness for C1 at a concrete model, series and horizon. -/
theorem claim_C1_witness :
    ShapeOK (linearRegressionModel realOps (fun _ => 0) sampleSeries 3)
      (lastDate sampleSeries) 3 :=
  claim_C1 linearRegressionModel (List.mem_cons_self _ _) realOps
    (fun _ => 0) sampleSeries 3 (by simp [sampleSeries]) (by omega)

/-- C3: for every series, model function and test window size `w`, a series
shorter than `2 · w` makes `generateBacktestResults` return the
`BacktestResult` whose six metrics are all 0 and whose predicted/actual
arrays are both empty (and, being a total function, it never throws). -/
theorem claim_C3 :
    ∀ (ops : MathOps ℝ) (modelFn : List (Row ℝ) → ℕ → List (PRow ℝ))
      (data : List (Row ℝ)) (w : ℕ), data.length < 2 * w →
      generateBacktestResults ops data modelFn w =
        ⟨0, 0, 0, 0, 0, 0, [], []⟩ := by
  intro ops modelFn data w hlen
  unfold generateBacktestResults
  rw [if_pos (by omega)]

/-- Witness for C3 at a concrete (empty) series and window size 1. -/
theorem claim_C3_witness :
    generateBacktestResults realOps ([] : List (Row ℝ)) (fun _ _ => []) 1 =
      ⟨0, 0, 0, 0, 0, 0, [], []⟩ :=
  claim_C3 realOps (fun _ _ => []) [] 1 (by simp)

/-- C4: `calculateModelScore` returns
`round(max(0, 100 - mape) * 0.25 + max(0, r2 * 100) * 0.25 + da * 0.5)`;
in particular it maps the record with `mape = 10`, `r2 = 0.8`,
`directionalAccuracy = 90` (other fields zero) to 88, and on any record
with `mape ≥ 0`, `r2 ≤ 1` and `directionalAccuracy ∈ [0, 100]` the result
is an integer in `[0, 100]`. -/
theorem claim_C4 :
    (∀ m : BacktestResult ℚ, calculateModelScore m =
      round (max 0 (100 - m.mape) * (1 / 4) + max 0 (m.r2 * 100) * (1 / 4) +
        m.directionalAccuracy * (1 / 2))) ∧
    calculateModelScore (⟨0, 0, 0, 10, 8 / 10, 90, [], []⟩ : BacktestResult ℚ) = 88 ∧
    (∀ m : BacktestResult ℚ, 0 ≤ m.mape → m.r2 ≤ 1 →
      0 ≤ m.directionalAccuracy → m.directionalAccuracy ≤ 100 →
      0 ≤ calculateModelScore m ∧ calculateModelScore m ≤ 100) := by
  refine ⟨fun m => rfl, ?_, ?_⟩
  · norm_num [calculateModelScore, round_eq]
  · intro m hmape hr2 hda0 hda100
    have h1 : (0 : ℚ) ≤ max 0 (100 - m.mape) := le_max_left 0 _
    have h2 : max 0 (100 - m.mape) ≤ 100 := by
      apply max_le (by norm_num) (by linarith)
    have h3 : (0 : ℚ) ≤ max 0 (m.r2 * 100) := le_max_left 0 _
    have h4 : max 0 (m.r2 * 100) ≤ 100 := by
      apply max_le (by norm_num) (by linarith)
    have hfla : (0 : ℚ) ≤ max 0 (100 - m.mape) * (1 / 4) +
        max 0 (m.r2 * 100) * (1 / 4) + m.directionalAccuracy * (1 / 2) := by
      nlinarith
    have hflb : max 0 (100 - m.mape) * (1 / 4) + max 0 (m.r2 * 100) * (1 / 4) +
        m.directionalAccuracy * (1 / 2) ≤ 100 := by nlinarith
    constructor
    · show (0 : ℤ) ≤ calculateModelScore m
      unfold calculateModelScore
      rw [round_eq]
      rw [show (0 : ℤ) = ⌊(1 / 2 : ℚ)⌋ by norm_num]
      apply Int.floor_le_floor
      linarith
    · show calculateModelScore m ≤ 100
      unfold calculateModelScore
      rw [round_eq]
      rw [show (100 : ℤ) = ⌊(100 + 1 / 2 : ℚ)⌋ by norm_num]
      apply Int.floor_le_floor
      linarith

/-- Witness for C4 (its bounds part) at a concrete metrics record. -/
theorem claim_C4_witness :
    0 ≤ calculateModelScore (⟨0, 0, 0, 10, 8 / 10, 90, [], []⟩ : BacktestResult ℚ) ∧
      calculateModelScore (⟨0, 0, 0, 10, 8 / 10, 90, [], []⟩ : BacktestResult ℚ) ≤ 100 :=
  claim_C4.2.2 ⟨0, 0, 0, 10, 8 / 10, 90, [], []⟩ (by norm_num) (by norm_num)
    (by norm_num) (by norm_num)

/-- C10: `calculateModelScore` reads only the `mape`, `r2` and
`directionalAccuracy` fields of its argument — two results that agree on
those three fields get the same score no matter how the remaining fields
differ. -/
theorem claim_C10 :
    ∀ m1 m2 : BacktestResult ℚ, m1.mape = m2.mape → m1.r2 = m2.r2 →
      m1.directionalAccuracy = m2.directionalAccuracy →
      calculateModelScore m1 = calculateModelScore m2 := by
  intro m1 m2 hmape hr2 hda
  unfold calculateModelScore
  rw [hmape, hr2, hda]

/-- Witness for C10: two records differing in `mae`, `mse`, `rmse` and the
value arrays but agreeing on the three read fields score identically. -/
theorem claim_C10_witness :
    calculateModelScore (⟨1, 2, 3, 10, 8 / 10, 90, [1], []⟩ : BacktestResult ℚ) =
      calculateModelScore (⟨4, 5, 6, 10, 8 / 10, 90, [], [2]⟩ : BacktestResult ℚ) :=
  claim_C10 ⟨1, 2, 3, 10, 8 / 10, 90, [1], []⟩ ⟨4, 5, 6, 10, 8 / 10, 90, [], [2]⟩
    rfl rfl rfl

/-- The concrete series of the C2 scenario: 10 rows whose target value
increases linearly by 1.0 per day starting from 100.0 (dates 0..9). -/
def c2series : List (Row ℚ) :=
  [⟨0, 100⟩, ⟨1, 101⟩, ⟨2, 102⟩, ⟨3, 103⟩, ⟨4, 104⟩,
   ⟨5, 105⟩, ⟨6, 106⟩, ⟨7, 107⟩, ⟨8, 108⟩, ⟨9, 109⟩]

/-- C2 counterexample: on the 10-row linear series, the three predicted
target values of `linearRegressionModel(series, field, 3)` are not
`[111, 112, 113]` — the model evaluates the fitted line at
`nextX = n + i - 1 = 10, 11, 12`, giving `[110, 111, 112]`. -/
theorem claim_C2_counterexample :
    (linearRegressionModel trivialOps (fun _ => 0) c2series 3).map PRow.value ≠
      [111, 112, 113] := by
  norm_num [linearRegressionModel, predRows, runPred, vals, lastDate, olsFit,
    round2, c2series, round_eq, List.range_succ, List.getD]

/-- C2 (amended): on the 10-row series with the target increasing by 1.0 per
day from 100.0, `linearRegressionModel(series, field, 3)` returns exactly
the three predicted target values `[110.00, 111.00, 112.00]` (slope 1,
intercept 100, first extrapolation point `x = n + 1 - 1 = 10`). -/
theorem claim_C2_amended :
    (linearRegressionModel trivialOps (fun _ => 0) c2series 3).map PRow.value =
      [110, 111, 112] := by
  norm_num [linearRegressionModel, predRows, runPred, vals, lastDate, olsFit,
    round2, c2series, round_eq, List.range_succ, List.getD]

/-- The claim's MAPE formula, word for word: 100 times the mean of
`|actual[i] - predicted[i]| / actual[i]` (absolute value on the numerator
only) over the indices with `actual[i] ≠ 0`; 0 when the lengths differ, the
sequences are empty, or no index qualifies. -/
def mapeSpec (actual predicted : List ℚ) : ℚ :=
  if actual.length ≠ predicted.length ∨ actual.length = 0 then 0
  else
    let terms := ((actual.zip predicted).filter fun x => decide (x.1 ≠ 0)).map
      fun x => |x.1 - x.2| / x.1
    if terms.length = 0 then 0 else 100 * (terms.sum / (terms.length : ℚ))

/-- The amended MAPE formula: as `mapeSpec` but with the absolute value
taken of the whole quotient, `|actual[i] - predicted[i]| / |actual[i]|`. -/
def mapeSpecAbs (actual predicted : List ℚ) : ℚ :=
  if actual.length ≠ predicted.length ∨ actual.length = 0 then 0
  else
    let terms := ((actual.zip predicted).filter fun x => decide (x.1 ≠ 0)).map
      fun x => |x.1 - x.2| / |x.1|
    if terms.length = 0 then 0 else 100 * (terms.sum / (terms.length : ℚ))

theorem mapeTermSum : ∀ l : List (ℚ × ℚ),
    (l.map fun x => if x.1 ≠ 0 then |(x.1 - x.2) / x.1| else 0).sum =
      ((l.filter fun x => decide (x.1 ≠ 0)).map fun x => |x.1 - x.2| / |x.1|).sum := by
  intro l
  induction l with
  | nil => simp
  | cons a t ih =>
    rw [List.map_cons, List.sum_cons, List.filter_cons]
    by_cases ha : a.1 = 0
    · rw [if_neg (by simp [ha]), if_neg (by simp [ha]), ih, zero_add]
    · rw [if_pos ha, if_pos (by simp [ha]), List.map_cons, List.sum_cons, ih,
        abs_div]

/-- C5 counterexample: at `actual = [-10]`, `predicted = [-12]`, the code
returns `|(-10 - -12) / -10| · 100 = 20`, while the claim's formula (with
the bare denominator `actual[i]`) gives `-20`. -/
theorem claim_C5_counterexample :
    calculateMAPE [(-10 : ℚ)] [(-12 : ℚ)] ≠ mapeSpec [(-10 : ℚ)] [(-12 : ℚ)] := by
  norm_num [calculateMAPE, mapeSpec, List.zip, List.zipWith, List.filter, abs_div]

/-- C5 (amended): `calculateMAPE` equals 100 times the mean of
`|actual[i] - predicted[i]| / |actual[i]|` over the indices with
`actual[i] ≠ 0`, and 0 when the lengths differ, the sequences are empty, or
no index qualifies. -/
theorem claim_C5_amended :
    ∀ actual predicted : List ℚ,
      calculateMAPE actual predicted = mapeSpecAbs actual predicted := by
  intro a p
  unfold calculateMAPE mapeSpecAbs
  by_cases hg : a.length ≠ p.length ∨ a.length = 0
  · rw [if_pos hg, if_pos hg]
  · rw [if_neg hg, if_neg hg]
    simp only [List.length_map]
    by_cases hc : 0 < ((a.zip p).filter fun x => decide (x.1 ≠ 0)).length
    · rw [if_pos hc, if_neg (by omega)]
      rw [mapeTermSum]
      ring
    · rw [if_neg hc, if_pos (by omega)]

/-- C6: for all real input sequences, directional accuracy lies in
`[0, 100]`, MAPE and RMSE are nonnegative, and R² is at most 1 (it is not
clamped below). -/
theorem claim_C6 :
    ∀ actual predicted : List ℝ,
      (0 ≤ calculateDirectionalAccuracy actual predicted ∧
        calculateDirectionalAccuracy actual predicted ≤ 100) ∧
      0 ≤ calculateMAPE actual predicted ∧
      0 ≤ calculateRMSE realOps actual predicted ∧
      calculateR2 actual predicted ≤ 1 := by
  intro a p
  refine ⟨?_, ?_, ?_, ?_⟩
  · unfold calculateDirectionalAccuracy
    by_cases hg : a.length ≤ 1 ∨ p.length ≤ 1 ∨ a.length ≠ p.length
    · rw [if_pos hg]
      norm_num
    · rw [if_neg hg]
      push_neg at hg
      obtain ⟨h1, h2, h3⟩ := hg
      dsimp only
      have hden : (0 : ℝ) < (a.length : ℝ) - 1 := by
        have : (2 : ℝ) ≤ (a.length : ℝ) := by exact_mod_cast h1
        linarith
      have hcle : (((a.tail.zipWith (fun x y => x - y) a).zip
            (p.tail.zipWith (fun x y => x - y) p)).filter fun x =>
            decide ((0 ≤ x.1 ∧ 0 ≤ x.2) ∨ (x.1 < 0 ∧ x.2 < 0))).length ≤
          a.length - 1 := by
        apply le_trans (List.length_filter_le _ _)
        rw [List.length_zip, List.length_zipWith, List.length_zipWith,
          List.length_tail, List.length_tail, h3]
        omega
      have hcler : ((((a.tail.zipWith (fun x y => x - y) a).zip
            (p.tail.zipWith (fun x y => x - y) p)).filter fun x =>
            decide ((0 ≤ x.1 ∧ 0 ≤ x.2) ∨ (x.1 < 0 ∧ x.2 < 0))).length : ℝ) ≤
          (a.length : ℝ) - 1 := by
        have h1n : 1 ≤ a.length := by omega
        have := (Nat.cast_le (α := ℝ)).2 hcle
        rwa [Nat.cast_sub h1n, Nat.cast_one] at this
      constructor
      · apply mul_nonneg (div_nonneg (Nat.cast_nonneg _) (le_of_lt hden))
        norm_num
      · have hq : ((((a.tail.zipWith (fun x y => x - y) a).zip
              (p.tail.zipWith (fun x y => x - y) p)).filter fun x =>
              decide ((0 ≤ x.1 ∧ 0 ≤ x.2) ∨ (x.1 < 0 ∧ x.2 < 0))).length : ℝ) /
            ((a.length : ℝ) - 1) ≤ 1 := (div_le_one hden).2 hcler
        calc ((((a.tail.zipWith (fun x y => x - y) a).zip
              (p.tail.zipWith (fun x y => x - y) p)).filter fun x =>
              decide ((0 ≤ x.1 ∧ 0 ≤ x.2) ∨ (x.1 < 0 ∧ x.2 < 0))).length : ℝ) /
            ((a.length : ℝ) - 1) * 100 ≤ 1 * 100 :=
              mul_le_mul_of_nonneg_right hq (by norm_num)
        _ = 100 := one_mul 100
  · unfold calculateMAPE
    by_cases hg : a.length ≠ p.length ∨ a.length = 0
    · rw [if_pos hg]
    · rw [if_neg hg]
      dsimp only
      by_cases hc : 0 < ((a.zip p).filter fun x => decide (x.1 ≠ 0)).length
      · rw [if_pos hc]
        refine mul_nonneg (div_nonneg ?_ (Nat.cast_nonneg _)) (by norm_num)
        apply List.sum_nonneg
        intro x hx
        simp only [List.mem_map] at hx
        obtain ⟨y, hy, rfl⟩ := hx
        split
        · exact abs_nonneg _
        · exact le_refl 0
      · rw [if_neg hc]
  · unfold calculateRMSE
    exact Real.sqrt_nonneg _
  · unfold calculateR2
    by_cases hg : a.length ≠ p.length ∨ a.length = 0
    · rw [if_pos hg]
      norm_num
    · rw [if_neg hg]
      dsimp only
      by_cases hss : 0 < (a.map fun v => (v - a.sum / (a.length : ℝ)) ^ 2).sum
      · rw [if_pos hss]
        have hres : 0 ≤ ((a.zip p).map fun x => (x.1 - x.2) ^ 2).sum := by
          apply List.sum_nonneg
          intro x hx
          simp only [List.mem_map] at hx
          obtain ⟨y, hy, rfl⟩ := hx
          exact sq_nonneg _
        have := div_nonneg hres (le_of_lt hss)
        linarith
      · rw [if_neg hss]
        norm_num

theorem arimaLikeModel_eq_exponential (ops : MathOps ℚ) (rand : ℕ → ℚ)
    (data : List (Row ℚ)) (h : ℕ) (hlen : data.length < 4) :
    arimaLikeModel ops rand data h = exponentialSmoothingModel ops rand data h := by
  unfold arimaLikeModel
  rw [if_pos]
  rw [vals_length]
  omega

theorem arimaLikeModel_valueFormula (ops : MathOps ℚ) (rand : ℕ → ℚ)
    (data : List (Row ℚ)) (h : ℕ) (hlen : 4 ≤ data.length) (j : ℕ)
    (hj : j < h) :
    ((arimaLikeModel ops rand data h).map PRow.value).getD j 0 =
      round2 ((vals data).getLastD 0 +
        ((j : ℚ) + 1) * arimaAvgDiff (vals data)) := by
  have hne : ¬(vals data).length < 4 := by rw [vals_length]; omega
  have heq : arimaLikeModel ops rand data h =
      runPred (lastDate data)
        (fun _ lastValue =>
          (lastValue + arimaAvgDiff (vals data),
           lastValue + arimaAvgDiff (vals data))) 1
        (((vals data).drop ((vals data).length - 4)).getLastD 0) h := by
    unfold arimaLikeModel
    rw [if_neg hne]
  rw [heq, runPred_getD_addc (lastDate data) (arimaAvgDiff (vals data)) h 1 j _ hj]
  congr 2
  apply getLastD_drop
  rw [vals_length] at hne ⊢
  omega

theorem lastDateE_of_ne_nil {α : Type} [LinearOrderedField α] [FloorRing α]
    (data : List (Row α)) (hlen : 1 ≤ data.length) :
    ∃ d : ℤ, lastDateE data = some d := by
  cases hq : data.getLast? with
  | none =>
    rw [List.getLast?_eq_none_iff] at hq
    subst hq
    simp at hlen
  | some r => exact ⟨r.date, by simp [lastDateE, hq]⟩

/-- C7 counterexample: the claim's never-throws conjunct fails on the empty
series (which has fewer than 4 rows): `arimaLikeModel([])` takes the
exponential-smoothing fallback, whose read of `data[data.length - 1].date`
throws a TypeError — in the fallible embedding, the run is `none` rather
than any list of prediction rows. -/
theorem claim_C7_counterexample :
    arimaLikeModelE trivialOps (fun _ => 0) ([] : List (Row ℚ)) 1 = none := rfl

/-- C7 (amended): on every non-empty series with fewer than 4 rows,
`arimaLikeModel` returns — without throwing — exactly the output of
`exponentialSmoothingModel` on the same inputs; on the empty series it
propagates the TypeError thrown by the exponential-smoothing fallback when
it reads the last row's date; on every non-empty series it does not throw;
and with at least 4 rows its `i`-th predicted value (1-based `i`, 0-based
`j = i - 1`) is the last value plus `i` times the average first difference
over the last 4 points, rounded to 2 decimal places. -/
theorem claim_C7_amended :
    ∀ (ops : MathOps ℚ) (rand : ℕ → ℚ) (data : List (Row ℚ)) (h : ℕ),
      (1 ≤ data.length → data.length < 4 →
        arimaLikeModelE ops rand data h =
          some (exponentialSmoothingModel ops rand data h)) ∧
      (data.length = 0 → arimaLikeModelE ops rand data h = none) ∧
      (1 ≤ data.length →
        arimaLikeModelE ops rand data h = some (arimaLikeModel ops rand data h)) ∧
      (4 ≤ data.length → ∀ j : ℕ, j < h →
        ((arimaLikeModel ops rand data h).map PRow.value).getD j 0 =
          round2 ((vals data).getLastD 0 +
            ((j : ℚ) + 1) * arimaAvgDiff (vals data))) := by
  intro ops rand data h
  refine ⟨?_, ?_, ?_, fun hlen j hj => arimaLikeModel_valueFormula ops rand data h hlen j hj⟩
  · intro h1 h4
    obtain ⟨d, hd⟩ := lastDateE_of_ne_nil data h1
    unfold arimaLikeModelE
    rw [if_pos (by rw [vals_length]; omega)]
    unfold exponentialSmoothingModelE
    rw [hd]
    rfl
  · intro h0
    rw [List.length_eq_zero] at h0
    subst h0
    rfl
  · intro h1
    obtain ⟨d, hd⟩ := lastDateE_of_ne_nil data h1
    unfold arimaLikeModelE
    by_cases h4 : (vals data).length < 4
    · rw [if_pos h4]
      unfold exponentialSmoothingModelE
      rw [hd, Option.map_some']
      rw [arimaLikeModel_eq_exponential ops rand data h (by rw [vals_length] at h4; omega)]
    · rw [if_neg h4, hd, Option.map_some']

/-- A concrete 3-row series (fallback side of C7). -/
def c7short : List (Row ℚ) := [⟨0, 10⟩, ⟨1, 12⟩, ⟨2, 11⟩]

/-- A concrete 4-row series (main side of C7). -/
def c7long : List (Row ℚ) := [⟨0, 10⟩, ⟨1, 12⟩, ⟨2, 11⟩, ⟨3, 14⟩]

/-- Witness for the amended C7: all four conjuncts instantiated at concrete
series (a 3-row series, the empty series, and a 4-row series). -/
theorem claim_C7_amended_witness :
    arimaLikeModelE trivialOps (fun _ => 0) c7short 2 =
        some (exponentialSmoothingModel trivialOps (fun _ => 0) c7short 2) ∧
      arimaLikeModelE trivialOps (fun _ => 0) ([] : List (Row ℚ)) 1 = none ∧
      arimaLikeModelE trivialOps (fun _ => 0) c7long 1 =
        some (arimaLikeModel trivialOps (fun _ => 0) c7long 1) ∧
      ((arimaLikeModel trivialOps (fun _ => 0) c7long 1).map PRow.value).getD 0 0 =
        round2 ((vals c7long).getLastD 0 + ((0 : ℚ) + 1) * arimaAvgDiff (vals c7long)) :=
  ⟨(claim_C7_amended trivialOps (fun _ => 0) c7short 2).1 (by simp [c7short])
      (by simp [c7short]),
   (claim_C7_amended trivialOps (fun _ => 0) [] 1).2.1 rfl,
   (claim_C7_amended trivialOps (fun _ => 0) c7long 1).2.2.1 (by simp [c7long]),
   (claim_C7_amended trivialOps (fun _ => 0) c7long 1).2.2.2 (by simp [c7long]) 0 one_pos⟩

/-- C9: on a non-empty series of fewer than 5 rows, every value predicted by
`movingAverageModel` is the sum of all the series values divided by the
fixed window size 5 (not by the row count), rounded to 2 decimal places. -/
theorem claim_C9 :
    ∀ (ops : MathOps ℚ) (rand : ℕ → ℚ) (data : List (Row ℚ)) (h : ℕ),
      1 ≤ data.length → data.length < 5 → ∀ j : ℕ, j < h →
      ((movingAverageModel ops rand data h).map PRow.value).getD j 0 =
        round2 ((vals data).sum / 5) := by
  intro ops rand data h h1 h5 j hj
  have heq : movingAverageModel ops rand data h =
      predRows (lastDate data) h
        (fun _ => ((vals data).drop ((vals data).length - 5)).sum / ((5 : ℕ) : ℚ)) := rfl
  rw [heq, predRows_getD _ _ _ j hj]
  have hdrop : (vals data).length - 5 = 0 := by rw [vals_length]; omega
  rw [hdrop, List.drop_zero]
  norm_num

/-- The single-row series of C9's example: one row of target value 7. -/
def c9series : List (Row ℚ) := [⟨0, 7⟩]

/-- Witness for C9 at a single-row series: the prediction is the single
value divided by 5. -/
theorem claim_C9_witness :
    ((movingAverageModel trivialOps (fun _ => 0) c9series 2).map PRow.value).getD 0 0 =
      round2 ((vals c9series).sum / 5) :=
  claim_C9 trivialOps (fun _ => 0) c9series 2 (by simp [c9series])
    (by simp [c9series]) 0 two_pos

/-- C8: every model except the pseudo-XGBoost and pseudo-BSTS heuristics is
deterministic — its output does not depend on the `Math.random()` stream, so
two invocations with identical series and horizon coincide. -/
theorem claim_C8 :
    ∀ m ∈ (nonNoiseModels (α := ℝ)), ∀ (ops : MathOps ℝ)
      (rand1 rand2 : ℕ → ℝ) (data : List (Row ℝ)) (h : ℕ),
      m ops rand1 data h = m ops rand2 data h := by
  intro m hm ops rand1 rand2 data h
  simp only [nonNoiseModels, List.mem_cons, List.not_mem_nil, or_false] at hm
  rcases hm with rfl | rfl | rfl | rfl | rfl | rfl | rfl | rfl | rfl | rfl |
    rfl | rfl | rfl | rfl
  all_goals rfl

/-- Witness for C8 at a concrete model, series, horizon and two distinct
random streams. -/
theorem claim_C8_witness :
    movingAverageModel realOps (fun _ => 1) sampleSeries 2 =
      movingAverageModel realOps (fun _ => 2) sampleSeries 2 :=
  claim_C8 movingAverageModel
    (List.mem_cons_of_mem _ (List.mem_cons_self _ _)) realOps
    (fun _ => 1) (fun _ => 2) sampleSeries 2
